import Mathlib

/-!
Verification of the machine-identity reset/restore engine of the
cursor-free-vip repository, as a shallow embedding in Lean.

Python dictionaries and JSON objects are modelled as association lists
(`Dict`); the filesystem visible to a function is modelled the same way,
mapping a path to the content of the file.  Byte strings produced by the
random source are modelled as lists of naturals below 256.  Fallible
external operations (file I/O, SQLite statements) are modelled by an
explicit fault-injection parameter `failAt` naming the step at which an
exception is raised; a raising step has no effect on the state, matching
the atomic behaviour of the corresponding library call.
-/

set_option autoImplicit false

namespace CursorFreeVip

/-- Association-list model of a Python `dict` with string keys and values
(also used for the flat JSON objects and for the filesystem view). -/
abbrev Dict := List (String × String)

/-- Model of Python `d[k] = v`: replace the value of an existing key in
place, append a fresh key at the end.  (Keys of a Python dict are unique,
so replacing the first occurrence is exact.) -/
def dictSet : Dict → String → String → Dict
  | [], k, v => [(k, v)]
  | (k', v') :: rest, k, v =>
    if k' = k then (k, v) :: rest else (k', v') :: dictSet rest k v

/-- Model of Python `d.update(new)`: assign each pair of `new` in order. -/
def dict_update (d : Dict) (new : Dict) : Dict :=
  new.foldl (fun acc kv => dictSet acc kv.1 kv.2) d

/-- Model of Python `d.get(k, deflt)`. -/
def pyGet (d : Dict) (k deflt : String) : String :=
  (List.lookup k d).getD deflt

/-- Lowercase hexadecimal digit characters `0-9a-f`. -/
def isLowerHexChar (c : Char) : Bool :=
  (48 ≤ c.toNat && c.toNat ≤ 57) || (97 ≤ c.toNat && c.toNat ≤ 102)

/-- Uppercase hexadecimal digit characters `0-9A-F`. -/
def isUpperHexChar (c : Char) : Bool :=
  (48 ≤ c.toNat && c.toNat ≤ 57) || (65 ≤ c.toNat && c.toNat ≤ 70)

/-- Lowercase hexadecimal digit for a nibble, as produced by the Python
`%x` formatting and `bytes.hex`. -/
def hexDigitChar (n : Nat) : Char :=
  if n < 10 then Char.ofNat (48 + n) else Char.ofNat (87 + n)

/-- Two lowercase hex digits of one byte. -/
def byteToHex (b : Nat) : List Char :=
  [hexDigitChar (b / 16), hexDigitChar (b % 16)]

/-- Model of `hashlib.shaN(...).hexdigest()` applied to a digest given as
its byte list: the digest rendered as lowercase hex. -/
def hexdigest (bs : List Nat) : List Char :=
  (bs.map byteToHex).flatten

/-- Version and variant bits set by `uuid.UUID(bytes=..., version=4)`:
the high nibble of byte 6 becomes 4 and the top two bits of byte 8
become 10.  On the 16-byte input of `uuid.uuid4` the first branch always
applies. -/
def setUuid4Bits : List Nat → List Nat
  | b0 :: b1 :: b2 :: b3 :: b4 :: b5 :: b6 :: b7 :: b8 :: rest =>
    b0 :: b1 :: b2 :: b3 :: b4 :: b5 :: (b6 % 16 + 64) :: b7 :: (b8 % 64 + 128) :: rest
  | l => l

/-- Textual form of `str(uuid.uuid4())` built from the 16 random bytes:
32 lowercase hex digits grouped 8-4-4-4-12 by dashes. -/
def uuid4chars (bs : List Nat) : List Char :=
  let h := hexdigest (setUuid4Bits bs)
  h.take 8 ++ '-' :: ((h.drop 8).take 4 ++ '-' ::
    ((h.drop 12).take 4 ++ '-' :: ((h.drop 16).take 4 ++ '-' :: h.drop 20)))

/-- Character `{`. -/
def openBrace : Char := Char.ofNat 123

/-- Character `}`. -/
def closeBrace : Char := Char.ofNat 125

/-- The identity bundle returned by `MachineIDResetter.generate_new_ids`. -/
structure IdentitySet where
  devDeviceId : String
  machineId : String
  macMachineId : String
  sqmId : String
  serviceMachineId : String
deriving DecidableEq

/-- The dictionary literal returned by `generate_new_ids`, in source
order of its keys. -/
def idPairs (ids : IdentitySet) : Dict :=
  [("telemetry.devDeviceId", ids.devDeviceId),
   ("telemetry.macMachineId", ids.macMachineId),
   ("telemetry.machineId", ids.machineId),
   ("telemetry.sqmId", ids.sqmId),
   ("storage.serviceMachineId", ids.serviceMachineId)]

/-- Model of `MachineIDResetter.update_machine_id_file` (success path): back up the
machine-id marker file when it exists, then overwrite it with the new id.
`path` is the resolved `get_cursor_machine_id_path()` and `ts` the
`datetime.now()` timestamp string. -/
def update_machine_id_file (path ts machine_id : String) (fs : Dict) : Bool × Dict :=
  let fs1 :=
    match List.lookup path fs with
    | some old => dictSet fs (path ++ ".backup." ++ ts) old
    | none => fs
  (true, dictSet fs1 path machine_id)

/-- Model of `MachineIDResetter.generate_new_ids`: fresh ids from the random
source (`u1`, `u2` the 16 `os.urandom` bytes behind the two `uuid.uuid4()`
calls; `d32`, `d64` the SHA-256/SHA-512 digest bytes of the hashed random
blocks), together with the write of the machine-id marker file it
performs through `update_machine_id_file` before returning. -/
def generate_new_ids (u1 d32 d64 u2 : List Nat) (path ts : String) (fs : Dict) :
    IdentitySet × Dict :=
  let dev_device_id := String.mk (uuid4chars u1)
  let machine_id := String.mk (hexdigest d32)
  let mac_machine_id := String.mk (hexdigest d64)
  let sqm_id := String.mk (openBrace :: ((uuid4chars u2).map Char.toUpper ++ [closeBrace]))
  let fs' := (update_machine_id_file path ts dev_device_id fs).2
  ({ devDeviceId := dev_device_id,
     machineId := machine_id,
     macMachineId := mac_machine_id,
     sqmId := sqm_id,
     serviceMachineId := dev_device_id }, fs')

/-- UUID textual form over a given digit alphabet: five dash-separated
groups of 8, 4, 4, 4 and 12 digits. -/
def isUuidChars (l : List Char) (digit : Char → Bool) : Prop :=
  ∃ a b c d e : List Char,
    l = a ++ '-' :: (b ++ '-' :: (c ++ '-' :: (d ++ '-' :: e))) ∧
    a.length = 8 ∧ b.length = 4 ∧ c.length = 4 ∧ d.length = 4 ∧ e.length = 12 ∧
    ∀ ch ∈ a ++ b ++ c ++ d ++ e, digit ch = true

/-- Lowercase UUID textual form, the shape of `str(uuid.uuid4())`. -/
def isUuidTextual (s : String) : Prop :=
  isUuidChars s.data isLowerHexChar

/-- Uppercase UUID wrapped in braces, the shape of the generated `sqmId`. -/
def isBracedUpperUuid (s : String) : Prop :=
  ∃ inner : List Char,
    s.data = openBrace :: (inner ++ [closeBrace]) ∧ isUuidChars inner isUpperHexChar

/-- Boolean test that `pat` is an initial segment of the second list. -/
def listStartsWith : List Char → List Char → Bool
  | [], _ => true
  | _ :: _, [] => false
  | p :: ps, c :: cs => p == c && listStartsWith ps cs

/-- Boolean test that `pat` occurs as a contiguous substring. -/
def occursIn (pat : List Char) : List Char → Bool
  | [] => pat.isEmpty
  | c :: cs => listStartsWith pat (c :: cs) || occursIn pat cs

/-- Left-to-right non-overlapping replacement of every occurrence of
`pat` by `rep`, the semantics of Python `str.replace` for a nonempty
pattern.  The `fuel` argument only makes the recursion structural; any
fuel at least the length of the scanned list gives the replacement
semantics, since each step consumes at least one character. -/
def replaceAllAux (pat rep : List Char) : Nat → List Char → List Char
  | _, [] => []
  | 0, c :: cs => c :: cs
  | fuel + 1, c :: cs =>
    if !pat.isEmpty && listStartsWith pat (c :: cs) then
      rep ++ replaceAllAux pat rep fuel (List.drop (pat.length - 1) cs)
    else
      c :: replaceAllAux pat rep fuel cs

/-- Python `s.replace(pat, rep)` on strings (nonempty `pat`). -/
def pyReplace (s pat rep : String) : String :=
  String.mk (replaceAllAux pat.data rep.data s.data.length s.data)

/-- The `patterns` dictionary of `modify_workbench_js`, in source order.
Braces inside the JavaScript literals are written `\x7b` and `\x7d`. -/
def patternsList : List (String × String) :=
  [("B(k,D(Ln,\x7btitle:\"Upgrade to Pro\",size:\"small\",get codicon()\x7breturn A.rocket\x7d,get onClick()\x7breturn t.pay\x7d\x7d),null)",
    "B(k,D(Ln,\x7btitle:\"yeongpin GitHub\",size:\"small\",get codicon()\x7breturn A.github\x7d,get onClick()\x7breturn function()\x7bwindow.open(\"https://github.com/yeongpin/cursor-free-vip\",\"_blank\")\x7d\x7d\x7d),null)"),
   ("M(x,I(as,\x7btitle:\"Upgrade to Pro\",size:\"small\",get codicon()\x7breturn $.rocket\x7d,get onClick()\x7breturn t.pay\x7d\x7d),null)",
    "M(x,I(as,\x7btitle:\"yeongpin GitHub\",size:\"small\",get codicon()\x7breturn $.rocket\x7d,get onClick()\x7breturn function()\x7bwindow.open(\"https://github.com/yeongpin/cursor-free-vip\",\"_blank\")\x7d\x7d\x7d),null)"),
   ("<div>Pro Trial", "<div>Pro"),
   ("py-1\">Auto-select", "py-1\">Bypass-Version-Pin"),
   ("async getEffectiveTokenLimit(e)\x7bconst n=e.modelName;if(!n)return 2e5;",
    "async getEffectiveTokenLimit(e)\x7breturn 9000000;const n=e.modelName;if(!n)return 9e5;"),
   ("var DWr=ne(\"<div class=settings__item_description>You are currently signed in with <strong></strong>.\");",
    "var DWr=ne(\"<div class=settings__item_description>You are currently signed in with <strong></strong>. <h1>Pro</h1>\");"),
   ("notifications-toasts", "notifications-toasts hidden")]

/-- The content transformation of `modify_workbench_js`: every rule of
the `patterns` dictionary applied in order by `str.replace`. -/
def applyPatterns (content : String) : String :=
  patternsList.foldl (fun acc pr => pyReplace acc pr.1 pr.2) content

/-- Files touched by `modify_workbench_js`: the target file, the
temporary file and the timestamped backup (`none` means absent). -/
structure WbState where
  orig : Option String
  tmp : Option String
  backup : Option String
deriving DecidableEq

/-- Step-by-step model of `modify_workbench_js` with fault injection.
`failAt = some k` raises an exception at step `k`: 1 `os.stat`,
2 `NamedTemporaryFile`, 3 the read of the original, 4 `tmp_file.write`
(`tmp_path` is assigned only after this write, so the error handler
unlinks the temp file only for failures from step 5 on), 5 the backup
`shutil.copy2`, 6 `os.remove(file_path)`, 7 `shutil.move`,
8 `os.chmod`/`os.chown`.  A raising step leaves the state as it was. -/
def modify_workbench_js (failAt : Option Nat) (s0 : WbState) : Bool × WbState :=
  if failAt = some 1 ∨ s0.orig = none then (false, s0)
  else if failAt = some 2 then (false, s0)
  else
    let s2 : WbState := { s0 with tmp := some "" }
    if failAt = some 3 then (false, s2)
    else
      match s0.orig with
      | none => (false, s2)
      | some content =>
        let patched := applyPatterns content
        if failAt = some 4 then (false, s2)
        else
          let s4 : WbState := { s2 with tmp := some patched }
          if failAt = some 5 then (false, { s4 with tmp := none })
          else
            let s5 : WbState := { s4 with backup := some content }
            if failAt = some 6 then (false, { s5 with tmp := none })
            else
              let s6 : WbState := { s5 with orig := none }
              if failAt = some 7 then (false, { s6 with tmp := none })
              else
                let s7 : WbState := { s6 with orig := some patched, tmp := none }
                if failAt = some 8 then (false, s7)
                else (true, s7)

/-- The embedded key-value database: whether `ItemTable` exists, and its
rows as a key-to-value map. -/
structure SqliteDb where
  tableExists : Bool
  rows : Dict
deriving DecidableEq

/-- The upsert loop of `update_sqlite_db`: `INSERT OR REPLACE` for each
pair inside the implicit transaction, starting at step index `i`;
`none` means an execute raised, so the transaction is never committed. -/
def runUpserts (failAt : Option Nat) : Nat → Dict → Dict → Option Dict
  | _, pending, [] => some pending
  | i, pending, (k, v) :: rest =>
    if failAt = some i then none
    else runUpserts failAt (i + 1) (dictSet pending k v) rest

/-- Model of `MachineIDResetter.update_sqlite_db` with fault injection: step 0
`sqlite3.connect`, step 1 `CREATE TABLE IF NOT EXISTS ItemTable`
(run in autocommit mode, so its effect persists on its own), steps
`2 .. 1 + n` the upserts, step `2 + n` the final `conn.commit()`.  An
uncommitted transaction is rolled back when the connection is dropped,
so on any upsert or commit failure the rows revert to their state right
after table creation. -/
def update_sqlite_db (failAt : Option Nat) (new_ids : Dict) (db : SqliteDb) : Bool × SqliteDb :=
  if failAt = some 0 then (false, db)
  else if failAt = some 1 then (false, db)
  else
    let db1 : SqliteDb := { tableExists := true, rows := if db.tableExists then db.rows else [] }
    match runUpserts failAt 2 db1.rows new_ids with
    | none => (false, db1)
    | some pending =>
      if failAt = some (2 + new_ids.length) then (false, db1)
      else (true, { db1 with rows := pending })

/-- The JSON step of `MachineIDResetter.reset_machine_ids`:
`config.update(new_ids)` on the parsed storage file, which is then
written back. -/
def reset_machine_ids_json_step (config new_ids : Dict) : Dict :=
  dict_update config new_ids

/-- Observable steps of one run of `reset_machine_ids`, in source
order. -/
inductive RStep
  | checkExists
  | checkAccess
  | readJson
  | backupJson
  | genIds
  | writeJson
  | sqliteUpdate
  | systemIds
  | workbench
  | versionPatch
deriving DecidableEq

/-- The complete event order of a fully successful `reset_machine_ids`
run, in source order. -/
def resetTrace : List RStep :=
  [RStep.checkExists, RStep.checkAccess, RStep.readJson, RStep.backupJson,
   RStep.genIds, RStep.writeJson, RStep.sqliteUpdate, RStep.systemIds,
   RStep.workbench, RStep.versionPatch]

/-- Trace model of `MachineIDResetter.reset_machine_ids` with fault
injection.  Raising steps: 2 the read of the storage JSON, 3 the
`shutil.copy2` backup, 4 `generate_new_ids`, 5 the write of the updated
JSON, 8 `get_workbench_cursor_path`.  `update_sqlite_db`,
`update_system_ids` and `modify_workbench_js` swallow their own errors
and cannot raise; their events mark that they were invoked.  An event is
recorded once the step has been entered successfully. -/
def reset_machine_ids_run (dbExists dbAccess : Bool) (failAt : Option Nat) :
    Bool × List RStep :=
  if !dbExists then (false, resetTrace.take 1)
  else if !dbAccess then (false, resetTrace.take 2)
  else if failAt = some 2 then (false, resetTrace.take 2)
  else if failAt = some 3 then (false, resetTrace.take 3)
  else if failAt = some 4 then (false, resetTrace.take 4)
  else if failAt = some 5 then (false, resetTrace.take 5)
  else if failAt = some 8 then (false, resetTrace.take 8)
  else (true, resetTrace)

/-- The storage JSON file: its parsed content (`none` when the file is
absent) and the stack of timestamped backups taken of it. -/
structure StorageFile where
  content : Option Dict
  backups : List Dict
deriving DecidableEq

/-- Model of `MachineIDRestorer.update_current_file`: fail when the file is
absent, otherwise back it up, merge the ids into the parsed object and
write the result back. -/
def update_current_file (ids : Dict) (st : StorageFile) : Bool × StorageFile :=
  match st.content with
  | none => (false, st)
  | some current =>
    (true, { content := some (dict_update current ids),
             backups := current :: st.backups })

/-- Model of `MachineIDRestorer.extract_ids_from_backup` on the parsed backup
document: the extracted id dictionary together with the keys for which a
missing-id warning is printed (the keys whose value is falsy). -/
def extract_ids_from_backup (backup_data : Dict) : Dict × List String :=
  let ids : Dict :=
    [("telemetry.devDeviceId", pyGet backup_data "telemetry.devDeviceId" ""),
     ("telemetry.macMachineId", pyGet backup_data "telemetry.macMachineId" ""),
     ("telemetry.machineId", pyGet backup_data "telemetry.machineId" ""),
     ("telemetry.sqmId", pyGet backup_data "telemetry.sqmId" ""),
     ("storage.serviceMachineId",
      pyGet backup_data "storage.serviceMachineId"
        (pyGet backup_data "telemetry.devDeviceId" ""))]
  (ids, (ids.filter (fun kv => kv.2 == "")).map Prod.fst)

/-- Stores touched by the restore flow. -/
structure RestoreState where
  storage : StorageFile
  db : SqliteDb
  machineIdFile : Option String
deriving DecidableEq

/-- Model of `MachineIDRestorer.restore_machine_ids` after a backup has been
selected and parsed: extract the ids (`if not ids` only rejects an empty
dictionary), ask for confirmation, update the storage file, and then the
database and the machine-id marker file (their results are ignored by
the flow). -/
def restore_machine_ids (backup_data : Dict) (confirm : Bool) (st : RestoreState) :
    Bool × RestoreState × List String :=
  let ex := extract_ids_from_backup backup_data
  let ids := ex.1
  let warnings := ex.2
  if ids.isEmpty then (false, st, warnings)
  else if !confirm then (false, st, warnings)
  else
    let u := update_current_file ids st.storage
    if !u.1 then (false, { st with storage := u.2 }, warnings)
    else
      let db' := (update_sqlite_db none ids st.db).2
      let mid' := some (pyGet ids "telemetry.devDeviceId" "")
      (true, { storage := u.2, db := db', machineIdFile := mid' }, warnings)

/-- Python `version.split('.')` for the one-character separator. -/
def splitOnDot : List Char → List (List Char)
  | [] => [[]]
  | c :: rest =>
    if c = '.' then [] :: splitOnDot rest
    else
      match splitOnDot rest with
      | [] => [[c]]
      | g :: gs => (c :: g) :: gs

/-- Python `int(x)` on a string of decimal digits. -/
def parseDigits (l : List Char) : Nat :=
  l.foldl (fun acc c => acc * 10 + (c.toNat - 48)) 0

/-- The version parser shared by `compare_versions` and `version_check`:
split on dots and convert each component to an integer. -/
def parse_version (s : String) : List Nat :=
  (splitOnDot s.data).map parseDigits

/-- Tail of the comparison loop of `compare_versions` once the left
version has run out of components: the left side is padded with zeros.
-/
def cmpZeroLeft : List Nat → Int
  | [] => 0
  | b :: qs => if 0 < b then -1 else cmpZeroLeft qs

/-- Tail of the comparison loop of `compare_versions` once the right
version has run out of components: the right side is padded with zeros.
-/
def cmpZeroRight : List Nat → Int
  | [] => 0
  | a :: ps => if 0 < a then 1 else cmpZeroRight ps

/-- The comparison loop of `compare_versions`: component-wise numeric
comparison, missing trailing components padded with zero. -/
def cmpParts : List Nat → List Nat → Int
  | [], qs => cmpZeroLeft qs
  | a :: ps, [] => if 0 < a then 1 else cmpZeroRight ps
  | a :: ps, b :: qs =>
    if a < b then -1 else if b < a then 1 else cmpParts ps qs

/-- Model of `compare_versions` of `bypass_version.py`. -/
def compare_versions (v1 v2 : String) : Int :=
  cmpParts (parse_version v1) (parse_version v2)

/-- Python `<` on tuples of integers: lexicographic, a strict prefix is
smaller. -/
def pyListLt : List Nat → List Nat → Bool
  | [], [] => false
  | [], _ :: _ => true
  | _ :: _, [] => false
  | a :: ps, b :: qs =>
    if a < b then true else if b < a then false else pyListLt ps qs

/-- The regex `^\d+\.\d+\.\d+$` used by `version_check`: exactly three
dot-separated nonempty digit groups. -/
def isVersionFormat (s : String) : Bool :=
  let ps := splitOnDot s.data
  ps.length == 3 && ps.all (fun p => !p.isEmpty && p.all Char.isDigit)

/-- Model of `version_check` of `reset_machine_manual.py`: reject malformed
version strings, then compare the parsed tuple against the optional
bounds with Python tuple order. -/
def version_check (version min_version max_version : String) : Bool :=
  if isVersionFormat version then
    let current := parse_version version
    if !(min_version == "") && pyListLt current (parse_version min_version) then false
    else if !(max_version == "") && pyListLt (parse_version max_version) current then false
    else true
  else false

theorem hexdigest_length (bs : List Nat) : (hexdigest bs).length = 2 * bs.length := by
  induction bs with
  | nil => rfl
  | cons b rest ih =>
    simp only [hexdigest, List.map_cons, List.flatten_cons, List.length_append,
      List.length_cons] at ih ⊢
    simp only [byteToHex, List.length_cons, List.length_nil]
    omega

theorem hexdigest_mem (bs : List Nat) (hb : ∀ b ∈ bs, b < 256) :
    ∀ c ∈ hexdigest bs, ∃ n, n < 16 ∧ c = hexDigitChar n := by
  induction bs with
  | nil => intro c hc; simp [hexdigest] at hc
  | cons b rest ih =>
    intro c hc
    simp only [hexdigest, List.map_cons, List.flatten_cons, List.mem_append] at hc
    rcases hc with hc | hc
    · have hb' : b < 256 := hb b (by simp)
      simp only [byteToHex, List.mem_cons, List.not_mem_nil, or_false] at hc
      rcases hc with rfl | rfl
      · exact ⟨b / 16, by omega, rfl⟩
      · exact ⟨b % 16, by omega, rfl⟩
    · exact ih (fun x hx => hb x (by simp [hx])) c hc

theorem lowerHex_hexDigitChar : ∀ n, n < 16 → isLowerHexChar (hexDigitChar n) = true := by
  decide

theorem upperHex_toUpper_hexDigitChar :
    ∀ n, n < 16 → isUpperHexChar (Char.toUpper (hexDigitChar n)) = true := by
  decide

theorem setUuid4Bits_length (bs : List Nat) : (setUuid4Bits bs).length = bs.length := by
  unfold setUuid4Bits
  split <;> simp

theorem setUuid4Bits_mem (bs : List Nat) :
    (∀ b ∈ bs, b < 256) → ∀ b ∈ setUuid4Bits bs, b < 256 := by
  unfold setUuid4Bits
  split
  · intro hb b hmem
    simp only [List.mem_cons] at hmem
    rcases hmem with rfl | rfl | rfl | rfl | rfl | rfl | rfl | rfl | rfl | hmem
    · exact hb _ (by simp)
    · exact hb _ (by simp)
    · exact hb _ (by simp)
    · exact hb _ (by simp)
    · exact hb _ (by simp)
    · exact hb _ (by simp)
    · omega
    · exact hb _ (by simp)
    · omega
    · exact hb _ (by simp [hmem])
  · exact fun hb => hb

theorem uuid4chars_lower (bs : List Nat) (hl : bs.length = 16) (hb : ∀ b ∈ bs, b < 256) :
    isUuidChars (uuid4chars bs) isLowerHexChar := by
  have hlen : (hexdigest (setUuid4Bits bs)).length = 32 := by
    rw [hexdigest_length, setUuid4Bits_length, hl]
  have hmem : ∀ c ∈ hexdigest (setUuid4Bits bs), isLowerHexChar c = true := by
    intro c hc
    obtain ⟨n, hn, rfl⟩ := hexdigest_mem _ (setUuid4Bits_mem bs hb) c hc
    exact lowerHex_hexDigitChar n hn
  refine ⟨(hexdigest (setUuid4Bits bs)).take 8,
    ((hexdigest (setUuid4Bits bs)).drop 8).take 4,
    ((hexdigest (setUuid4Bits bs)).drop 12).take 4,
    ((hexdigest (setUuid4Bits bs)).drop 16).take 4,
    (hexdigest (setUuid4Bits bs)).drop 20, rfl, ?_, ?_, ?_, ?_, ?_, ?_⟩
  · simp [List.length_take, hlen]
  · simp [List.length_take, List.length_drop, hlen]
  · simp [List.length_take, List.length_drop, hlen]
  · simp [List.length_take, List.length_drop, hlen]
  · simp [List.length_drop, hlen]
  · intro ch hch
    apply hmem
    simp only [List.mem_append] at hch
    rcases hch with ((((h | h) | h) | h) | h)
    · exact List.take_subset _ _ h
    · exact List.drop_subset _ _ (List.take_subset _ _ h)
    · exact List.drop_subset _ _ (List.take_subset _ _ h)
    · exact List.drop_subset _ _ (List.take_subset _ _ h)
    · exact List.drop_subset _ _ h

theorem uuid4chars_upper (bs : List Nat) (hl : bs.length = 16) (hb : ∀ b ∈ bs, b < 256) :
    isUuidChars ((uuid4chars bs).map Char.toUpper) isUpperHexChar := by
  have hlen : (hexdigest (setUuid4Bits bs)).length = 32 := by
    rw [hexdigest_length, setUuid4Bits_length, hl]
  have hmem : ∀ c ∈ hexdigest (setUuid4Bits bs), isUpperHexChar (Char.toUpper c) = true := by
    intro c hc
    obtain ⟨n, hn, rfl⟩ := hexdigest_mem _ (setUuid4Bits_mem bs hb) c hc
    exact upperHex_toUpper_hexDigitChar n hn
  have hdash : Char.toUpper '-' = '-' := by decide
  refine ⟨((hexdigest (setUuid4Bits bs)).take 8).map Char.toUpper,
    (((hexdigest (setUuid4Bits bs)).drop 8).take 4).map Char.toUpper,
    (((hexdigest (setUuid4Bits bs)).drop 12).take 4).map Char.toUpper,
    (((hexdigest (setUuid4Bits bs)).drop 16).take 4).map Char.toUpper,
    ((hexdigest (setUuid4Bits bs)).drop 20).map Char.toUpper, ?_, ?_, ?_, ?_, ?_, ?_, ?_⟩
  · simp only [uuid4chars, List.map_append, List.map_cons, hdash]
  · simp [List.length_take, hlen]
  · simp [List.length_take, List.length_drop, hlen]
  · simp [List.length_take, List.length_drop, hlen]
  · simp [List.length_take, List.length_drop, hlen]
  · simp [List.length_drop, hlen]
  · intro ch hch
    simp only [List.mem_append, List.mem_map] at hch
    rcases hch with ((((⟨x, h, rfl⟩ | ⟨x, h, rfl⟩) | ⟨x, h, rfl⟩) | ⟨x, h, rfl⟩) | ⟨x, h, rfl⟩)
    · exact hmem x (List.take_subset _ _ h)
    · exact hmem x (List.drop_subset _ _ (List.take_subset _ _ h))
    · exact hmem x (List.drop_subset _ _ (List.take_subset _ _ h))
    · exact hmem x (List.drop_subset _ _ (List.take_subset _ _ h))
    · exact hmem x (List.drop_subset _ _ h)

/-- C1: every identity set returned by `generate_new_ids` has a
lowercase textual UUID as `devDeviceId`, a 64-character lowercase-hex
`machineId`, a 128-character lowercase-hex `macMachineId`, an uppercase
brace-wrapped UUID as `sqmId`, and a `serviceMachineId` equal to
`devDeviceId`. -/
theorem c1_generate_new_ids_formats (u1 d32 d64 u2 : List Nat) (path ts : String)
    (fs : Dict)
    (h1 : u1.length = 16) (h1b : ∀ b ∈ u1, b < 256)
    (h2 : d32.length = 32) (h2b : ∀ b ∈ d32, b < 256)
    (h3 : d64.length = 64) (h3b : ∀ b ∈ d64, b < 256)
    (h4 : u2.length = 16) (h4b : ∀ b ∈ u2, b < 256) :
    isUuidTextual (generate_new_ids u1 d32 d64 u2 path ts fs).1.devDeviceId ∧
    ((generate_new_ids u1 d32 d64 u2 path ts fs).1.machineId.data.length = 64 ∧
      ∀ c ∈ (generate_new_ids u1 d32 d64 u2 path ts fs).1.machineId.data,
        isLowerHexChar c = true) ∧
    ((generate_new_ids u1 d32 d64 u2 path ts fs).1.macMachineId.data.length = 128 ∧
      ∀ c ∈ (generate_new_ids u1 d32 d64 u2 path ts fs).1.macMachineId.data,
        isLowerHexChar c = true) ∧
    isBracedUpperUuid (generate_new_ids u1 d32 d64 u2 path ts fs).1.sqmId ∧
    (generate_new_ids u1 d32 d64 u2 path ts fs).1.serviceMachineId =
      (generate_new_ids u1 d32 d64 u2 path ts fs).1.devDeviceId := by
  refine ⟨?_, ⟨?_, ?_⟩, ⟨?_, ?_⟩, ?_, rfl⟩
  · exact uuid4chars_lower u1 h1 h1b
  · show (hexdigest d32).length = 64
    rw [hexdigest_length, h2]
  · intro c hc
    obtain ⟨n, hn, rfl⟩ := hexdigest_mem d32 h2b c hc
    exact lowerHex_hexDigitChar n hn
  · show (hexdigest d64).length = 128
    rw [hexdigest_length, h3]
  · intro c hc
    obtain ⟨n, hn, rfl⟩ := hexdigest_mem d64 h3b c hc
    exact lowerHex_hexDigitChar n hn
  · exact ⟨(uuid4chars u2).map Char.toUpper, rfl, uuid4chars_upper u2 h4 h4b⟩

/-- C1 witness: the theorem instantiated at the all-zero random source. -/
theorem c1_generate_new_ids_formats_witness :
    isUuidTextual
      (generate_new_ids (List.replicate 16 0) (List.replicate 32 0) (List.replicate 64 0)
        (List.replicate 16 0) "machineId" "20250101_000000" []).1.devDeviceId :=
  (c1_generate_new_ids_formats (List.replicate 16 0) (List.replicate 32 0)
    (List.replicate 64 0) (List.replicate 16 0) "machineId" "20250101_000000" []
    (by decide) (by decide) (by decide) (by decide) (by decide) (by decide)
    (by decide) (by decide)).1

theorem lookup_dictSet_self (d : Dict) (k v : String) :
    List.lookup k (dictSet d k v) = some v := by
  induction d with
  | nil => simp [dictSet, List.lookup]
  | cons p rest ih =>
    obtain ⟨k0, v0⟩ := p
    by_cases h0 : k0 = k
    · subst h0; simp [dictSet, List.lookup]
    · simp only [dictSet, if_neg h0, List.lookup]
      rw [show (k == k0) = false from beq_eq_false_iff_ne.mpr fun he => h0 he.symm]
      exact ih

theorem lookup_dictSet_ne (d : Dict) (k v k' : String) (h : k' ≠ k) :
    List.lookup k' (dictSet d k v) = List.lookup k' d := by
  have hbeq : (k' == k) = false := beq_eq_false_iff_ne.mpr h
  induction d with
  | nil => simp [dictSet, List.lookup, hbeq]
  | cons p rest ih =>
    obtain ⟨k0, v0⟩ := p
    by_cases h0 : k0 = k
    · subst h0
      simp only [dictSet, if_pos rfl, List.lookup, hbeq]
    · simp only [dictSet, if_neg h0, List.lookup]
      by_cases hk : k' = k0
      · rw [show (k' == k0) = true from beq_iff_eq.mpr hk]
      · rw [show (k' == k0) = false from beq_eq_false_iff_ne.mpr hk]
        exact ih

theorem lookup_dict_update_notkey (new : Dict) (d : Dict) (k : String)
    (h : ∀ kv ∈ new, kv.1 ≠ k) :
    List.lookup k (dict_update d new) = List.lookup k d := by
  induction new generalizing d with
  | nil => rfl
  | cons kv rest ih =>
    show List.lookup k (dict_update (dictSet d kv.1 kv.2) rest) = _
    rw [ih (dictSet d kv.1 kv.2) (fun x hx => h x (by simp [hx]))]
    exact lookup_dictSet_ne d kv.1 kv.2 k (fun he => (h kv (by simp)) he.symm)

/-- C5: committing an identity set into the parsed JSON object — the
`config.update(new_ids)` step of `reset_machine_ids` and the
`current_data.update(ids)` step of `update_current_file` — leaves every
key outside the merged dictionary bound exactly as before, and binds
each of the five identity keys to its new value. -/
theorem c5_json_merge_frame (config : Dict) (new_ids : Dict) (k : String)
    (h : ∀ kv ∈ new_ids, kv.1 ≠ k) :
    List.lookup k (reset_machine_ids_json_step config new_ids) = List.lookup k config ∧
    (∀ bks, update_current_file new_ids ⟨some config, bks⟩ =
      (true, ⟨some (dict_update config new_ids), config :: bks⟩)) ∧
    List.lookup k (dict_update config new_ids) = List.lookup k config ∧
    ∀ ids : IdentitySet,
      List.lookup "telemetry.devDeviceId"
          (reset_machine_ids_json_step config (idPairs ids)) = some ids.devDeviceId ∧
      List.lookup "telemetry.macMachineId"
          (reset_machine_ids_json_step config (idPairs ids)) = some ids.macMachineId ∧
      List.lookup "telemetry.machineId"
          (reset_machine_ids_json_step config (idPairs ids)) = some ids.machineId ∧
      List.lookup "telemetry.sqmId"
          (reset_machine_ids_json_step config (idPairs ids)) = some ids.sqmId ∧
      List.lookup "storage.serviceMachineId"
          (reset_machine_ids_json_step config (idPairs ids)) = some ids.serviceMachineId := by
  refine ⟨lookup_dict_update_notkey new_ids config k h, fun bks => rfl,
    lookup_dict_update_notkey new_ids config k h, fun ids => ⟨?_, ?_, ?_, ?_, ?_⟩⟩
  all_goals
    show List.lookup _ (dict_update config (idPairs ids)) = _
  all_goals
    simp only [dict_update, idPairs, List.foldl_cons, List.foldl_nil]
  · rw [lookup_dictSet_ne _ _ _ _ (by decide), lookup_dictSet_ne _ _ _ _ (by decide),
      lookup_dictSet_ne _ _ _ _ (by decide), lookup_dictSet_ne _ _ _ _ (by decide),
      lookup_dictSet_self]
  · rw [lookup_dictSet_ne _ _ _ _ (by decide), lookup_dictSet_ne _ _ _ _ (by decide),
      lookup_dictSet_ne _ _ _ _ (by decide), lookup_dictSet_self]
  · rw [lookup_dictSet_ne _ _ _ _ (by decide), lookup_dictSet_ne _ _ _ _ (by decide),
      lookup_dictSet_self]
  · rw [lookup_dictSet_ne _ _ _ _ (by decide), lookup_dictSet_self]
  · rw [lookup_dictSet_self]

/-- C5 witness: the scenario of the spec, merging `devDeviceId = "abc"` into
`{"foo": "bar"}` keeps the binding of `"foo"`. -/
theorem c5_json_merge_frame_witness :
    List.lookup "foo"
        (reset_machine_ids_json_step [("foo", "bar")] [("telemetry.devDeviceId", "abc")]) =
      List.lookup "foo" [("foo", "bar")] :=
  (c5_json_merge_frame [("foo", "bar")] [("telemetry.devDeviceId", "abc")] "foo"
    (by decide)).1

/-- C10: when the backup document lacks `storage.serviceMachineId`,
`extract_ids_from_backup` maps that key to the value the document holds at
`telemetry.devDeviceId`, or to the empty string when that key is
absent too. -/
theorem c10_service_machine_id_fallback (backup_data : Dict)
    (h : List.lookup "storage.serviceMachineId" backup_data = none) :
    List.lookup "storage.serviceMachineId" (extract_ids_from_backup backup_data).1 =
      some ((List.lookup "telemetry.devDeviceId" backup_data).getD "") := by
  have e1 : List.lookup "storage.serviceMachineId" (extract_ids_from_backup backup_data).1 =
      some (pyGet backup_data "storage.serviceMachineId"
        (pyGet backup_data "telemetry.devDeviceId" "")) := rfl
  rw [e1]
  simp [pyGet, h]

/-- C10 witness: a backup holding only `telemetry.devDeviceId`. -/
theorem c10_service_machine_id_fallback_witness :
    List.lookup "storage.serviceMachineId"
        (extract_ids_from_backup [("telemetry.devDeviceId", "abc")]).1 =
      some ((List.lookup "telemetry.devDeviceId"
        [("telemetry.devDeviceId", "abc")]).getD "") :=
  c10_service_machine_id_fallback [("telemetry.devDeviceId", "abc")] (by decide)

/-- C9: a backup whose identity fields are all empty strings yields one
missing-id warning per field, and the restore flow does not abort: with
the operation confirmed and the storage file present it still reaches
the write, committing the merged object. -/
theorem c9_restore_empty_ids (backup_data : Dict)
    (h1 : List.lookup "telemetry.devDeviceId" backup_data = some "")
    (h2 : List.lookup "telemetry.macMachineId" backup_data = some "")
    (h3 : List.lookup "telemetry.machineId" backup_data = some "")
    (h4 : List.lookup "telemetry.sqmId" backup_data = some "")
    (h5 : List.lookup "storage.serviceMachineId" backup_data = some "") :
    (extract_ids_from_backup backup_data).2 =
      ["telemetry.devDeviceId", "telemetry.macMachineId", "telemetry.machineId",
       "telemetry.sqmId", "storage.serviceMachineId"] ∧
    ∀ (current : Dict) (bks : List Dict) (db : SqliteDb) (mid : Option String),
      (restore_machine_ids backup_data true ⟨⟨some current, bks⟩, db, mid⟩).1 = true ∧
      (restore_machine_ids backup_data true
          ⟨⟨some current, bks⟩, db, mid⟩).2.1.storage.content =
        some (dict_update current (extract_ids_from_backup backup_data).1) := by
  have hids : (extract_ids_from_backup backup_data).1 =
      [("telemetry.devDeviceId", ""), ("telemetry.macMachineId", ""),
       ("telemetry.machineId", ""), ("telemetry.sqmId", ""),
       ("storage.serviceMachineId", "")] := by
    simp [extract_ids_from_backup, pyGet, h1, h2, h3, h4, h5]
  refine ⟨?_, ?_⟩
  · show ((extract_ids_from_backup backup_data).1.filter
      (fun kv => kv.2 == "")).map Prod.fst = _
    rw [hids]
    decide
  · intro current bks db mid
    simp only [restore_machine_ids, hids]
    simp [update_current_file, hids]

/-- C9 witness: the theorem at a concrete all-empty backup document. -/
theorem c9_restore_empty_ids_witness :
    (extract_ids_from_backup
        [("telemetry.devDeviceId", ""), ("telemetry.macMachineId", ""),
         ("telemetry.machineId", ""), ("telemetry.sqmId", ""),
         ("storage.serviceMachineId", "")]).2 =
      ["telemetry.devDeviceId", "telemetry.macMachineId", "telemetry.machineId",
       "telemetry.sqmId", "storage.serviceMachineId"] :=
  (c9_restore_empty_ids
    [("telemetry.devDeviceId", ""), ("telemetry.macMachineId", ""),
     ("telemetry.machineId", ""), ("telemetry.sqmId", ""),
     ("storage.serviceMachineId", "")]
    (by decide) (by decide) (by decide) (by decide) (by decide)).1

/-- C2 counterexample: with the original file holding `"x"`, a failure
of `shutil.move` (step 7) leaves the original file deleted, not
untouched, although it occurs before the temp file is renamed into
place; and a failure while reading the original (step 3) leaves the
temporary file behind, because `tmp_path` is not yet assigned when the
error handler runs. -/
theorem c2_patch_engine_atomicity_counterexample :
    (modify_workbench_js (some 7) ⟨some "x", none, none⟩).2.orig ≠ some "x" ∧
    (modify_workbench_js (some 3) ⟨some "x", none, none⟩).2.tmp = some "" := by
  decide

/-- C2 (amended): failures up to and including the backup and
`os.remove` steps leave the content of the original file untouched; a failure
of the `shutil.move` after the original was removed leaves the original
absent with its content only in the backup; the temporary file is
removed on error paths from the backup step on, but a failure during the
read or the temp write leaves the (at that point empty) temporary file
behind; on success the original holds exactly the fully patched
content. -/
theorem c2_patch_engine_atomicity_amended (failAt : Option Nat) (c : String) :
    ((modify_workbench_js failAt ⟨some c, none, none⟩).1 = true →
      (modify_workbench_js failAt ⟨some c, none, none⟩).2 =
        ⟨some (applyPatterns c), none, some c⟩) ∧
    (∀ k, failAt = some k → 1 ≤ k → k ≤ 6 →
      (modify_workbench_js failAt ⟨some c, none, none⟩).2.orig = some c) ∧
    (failAt = some 7 →
      (modify_workbench_js failAt ⟨some c, none, none⟩).2.orig = none ∧
      (modify_workbench_js failAt ⟨some c, none, none⟩).2.backup = some c) ∧
    (∀ k, failAt = some k → 5 ≤ k →
      (modify_workbench_js failAt ⟨some c, none, none⟩).2.tmp = none) ∧
    (∀ k, failAt = some k → k = 3 ∨ k = 4 →
      (modify_workbench_js failAt ⟨some c, none, none⟩).2.tmp = some "") := by
  rcases failAt with _ | k
  · refine ⟨fun _ => ?_, ?_, ?_, ?_, ?_⟩ <;> simp [modify_workbench_js]
  · rcases k with _ | _ | _ | _ | _ | _ | _ | _ | _ | k <;>
      refine ⟨fun h => ?_, fun k' hk' hge hle => ?_, fun h7 => ?_,
        fun k' hk' hge => ?_, fun k' hk' h34 => ?_⟩ <;>
      first
        | exact absurd h Bool.false_ne_true
        | (injection hk' with hinj; omega)
        | (injection h7 with hinj; omega)
        | (injection hk' with hinj; rcases h34 with rfl | rfl <;> omega)
        | rfl
        | exact ⟨rfl, rfl⟩

/-- C2 amended witness: with a failing backup step the temp file is
cleaned up. -/
theorem c2_patch_engine_atomicity_amended_witness :
    (modify_workbench_js (some 5) ⟨some "x", none, none⟩).2.tmp = none :=
  (c2_patch_engine_atomicity_amended (some 5) "x").2.2.2.1 5 rfl (by decide)

theorem replaceAllAux_of_not_occurs (pat rep : List Char) :
    ∀ (fuel : Nat) (l : List Char), occursIn pat l = false →
      replaceAllAux pat rep fuel l = l := by
  intro fuel
  induction fuel with
  | zero => intro l h; cases l <;> rfl
  | succ fuel ih =>
    intro l h
    cases l with
    | nil => rfl
    | cons c cs =>
      simp only [occursIn, Bool.or_eq_false_iff] at h
      obtain ⟨hsw, hrest⟩ := h
      simp only [replaceAllAux]
      rw [if_neg (by simp [hsw])]
      rw [ih cs hrest]

theorem pyReplace_of_not_occurs (s pat rep : String)
    (h : occursIn pat.data s.data = false) : pyReplace s pat rep = s := by
  unfold pyReplace
  rw [replaceAllAux_of_not_occurs pat.data rep.data s.data.length s.data h]

theorem foldl_pyReplace_of_not_occurs (rules : List (String × String)) (c : String)
    (h : ∀ pr ∈ rules, occursIn pr.1.data c.data = false) :
    rules.foldl (fun acc pr => pyReplace acc pr.1 pr.2) c = c := by
  induction rules with
  | nil => rfl
  | cons r rest ih =>
    simp only [List.foldl_cons]
    rw [pyReplace_of_not_occurs c r.1 r.2 (h r (by simp))]
    exact ih fun pr hpr => h pr (by simp [hpr])

/-- C3 counterexample: the full rule set of `modify_workbench_js` is not
idempotent — on the content `"notifications-toasts"` a second
application appends a second `" hidden"`, because the replacement of that
rule contains its own search text. -/
theorem c3_patch_idempotence_counterexample :
    applyPatterns (applyPatterns "notifications-toasts") ≠
      applyPatterns "notifications-toasts" := by
  decide

/-- C3 (amended): a rule whose search text is absent is a no-op and
raises no error, and consequently applying the rule set twice yields the
same content as applying it once for every content whose once-patched
form contains none of the search texts; unrestricted idempotence fails
(see the counterexample). -/
theorem c3_patch_idempotence_amended :
    (∀ s pat rep : String, occursIn pat.data s.data = false →
      pyReplace s pat rep = s) ∧
    ∀ c : String,
      (∀ pr ∈ patternsList, occursIn pr.1.data (applyPatterns c).data = false) →
      applyPatterns (applyPatterns c) = applyPatterns c := by
  refine ⟨fun s pat rep h => pyReplace_of_not_occurs s pat rep h, fun c h => ?_⟩
  exact foldl_pyReplace_of_not_occurs patternsList (applyPatterns c) h

/-- C3 amended witness: a rule whose search text is absent leaves the
content unchanged. -/
theorem c3_patch_idempotence_amended_witness : pyReplace "b" "a" "x" = "b" :=
  c3_patch_idempotence_amended.1 "b" "a" "x" (by decide)

theorem lookup_dict_update_idPairs (config : Dict) (ids : IdentitySet) :
    List.lookup "telemetry.devDeviceId" (dict_update config (idPairs ids)) =
      some ids.devDeviceId ∧
    List.lookup "telemetry.macMachineId" (dict_update config (idPairs ids)) =
      some ids.macMachineId ∧
    List.lookup "telemetry.machineId" (dict_update config (idPairs ids)) =
      some ids.machineId ∧
    List.lookup "telemetry.sqmId" (dict_update config (idPairs ids)) =
      some ids.sqmId ∧
    List.lookup "storage.serviceMachineId" (dict_update config (idPairs ids)) =
      some ids.serviceMachineId := by
  refine ⟨?_, ?_, ?_, ?_, ?_⟩ <;>
    simp only [dict_update, idPairs, List.foldl_cons, List.foldl_nil]
  · rw [lookup_dictSet_ne _ _ _ _ (by decide), lookup_dictSet_ne _ _ _ _ (by decide),
      lookup_dictSet_ne _ _ _ _ (by decide), lookup_dictSet_ne _ _ _ _ (by decide),
      lookup_dictSet_self]
  · rw [lookup_dictSet_ne _ _ _ _ (by decide), lookup_dictSet_ne _ _ _ _ (by decide),
      lookup_dictSet_ne _ _ _ _ (by decide), lookup_dictSet_self]
  · rw [lookup_dictSet_ne _ _ _ _ (by decide), lookup_dictSet_ne _ _ _ _ (by decide),
      lookup_dictSet_self]
  · rw [lookup_dictSet_ne _ _ _ _ (by decide), lookup_dictSet_self]
  · rw [lookup_dictSet_self]

theorem runUpserts_some (failAt : Option Nat) (l : Dict) :
    ∀ (i : Nat) (pending p : Dict), runUpserts failAt i pending l = some p →
      p = dict_update pending l := by
  induction l with
  | nil =>
    intro i pending p h
    simp only [runUpserts, Option.some.injEq] at h
    simp [dict_update, h]
  | cons kv rest ih =>
    intro i pending p h
    obtain ⟨k, v⟩ := kv
    simp only [runUpserts] at h
    by_cases hf : failAt = some i
    · rw [if_pos hf] at h; exact absurd h (by simp)
    · rw [if_neg hf] at h
      have := ih (i + 1) (dictSet pending k v) p h
      simpa [dict_update, List.foldl_cons] using this

/-- C4: `update_sqlite_db` creates `ItemTable` when absent (its DDL
persists on its own), and the upserts are all-or-nothing: on success the
rows are exactly the initial table contents with every pair of the
identity set upserted in order, and on any failure the rows are
unchanged (either the untouched database or the freshly created empty
table), so a partial identity set can never be observed. -/
theorem c4_update_sqlite_db_transactional (failAt : Option Nat) (new_ids : Dict)
    (db : SqliteDb) :
    ((update_sqlite_db failAt new_ids db).1 = true →
      (update_sqlite_db failAt new_ids db).2.tableExists = true ∧
      (update_sqlite_db failAt new_ids db).2.rows =
        dict_update (if db.tableExists then db.rows else []) new_ids) ∧
    ((update_sqlite_db failAt new_ids db).1 = false →
      (update_sqlite_db failAt new_ids db).2.rows = db.rows ∨
      (update_sqlite_db failAt new_ids db).2.rows =
        (if db.tableExists then db.rows else [])) ∧
    (∀ ids : IdentitySet, new_ids = idPairs ids →
      (update_sqlite_db failAt new_ids db).1 = true →
      List.lookup "telemetry.devDeviceId" (update_sqlite_db failAt new_ids db).2.rows =
        some ids.devDeviceId ∧
      List.lookup "telemetry.machineId" (update_sqlite_db failAt new_ids db).2.rows =
        some ids.machineId ∧
      List.lookup "storage.serviceMachineId" (update_sqlite_db failAt new_ids db).2.rows =
        some ids.serviceMachineId) := by
  by_cases h0 : failAt = some 0
  · have heq : update_sqlite_db failAt new_ids db = (false, db) := by
      simp [update_sqlite_db, h0]
    rw [heq]
    exact ⟨fun h => absurd h Bool.false_ne_true, fun _ => Or.inl rfl,
      fun ids _ h => absurd h Bool.false_ne_true⟩
  · by_cases h1 : failAt = some 1
    · have heq : update_sqlite_db failAt new_ids db = (false, db) := by
        simp [update_sqlite_db, h0, h1]
      rw [heq]
      exact ⟨fun h => absurd h Bool.false_ne_true, fun _ => Or.inl rfl,
        fun ids _ h => absurd h Bool.false_ne_true⟩
    · cases hrun : runUpserts failAt 2 (if db.tableExists then db.rows else []) new_ids with
      | none =>
        have heq : update_sqlite_db failAt new_ids db =
            (false, ⟨true, if db.tableExists then db.rows else []⟩) := by
          simp [update_sqlite_db, h0, h1, hrun]
        rw [heq]
        exact ⟨fun h => absurd h Bool.false_ne_true, fun _ => Or.inr rfl,
          fun ids _ h => absurd h Bool.false_ne_true⟩
      | some pending =>
        have hp : pending = dict_update (if db.tableExists then db.rows else []) new_ids :=
          runUpserts_some failAt new_ids 2 _ pending hrun
        by_cases hc : failAt = some (2 + new_ids.length)
        · have heq : update_sqlite_db failAt new_ids db =
              (false, ⟨true, if db.tableExists then db.rows else []⟩) := by
            simp only [update_sqlite_db, if_neg h0, if_neg h1, hrun]
            rw [if_pos hc]
          rw [heq]
          exact ⟨fun h => absurd h Bool.false_ne_true, fun _ => Or.inr rfl,
            fun ids _ h => absurd h Bool.false_ne_true⟩
        · have heq : update_sqlite_db failAt new_ids db = (true, ⟨true, pending⟩) := by
            simp only [update_sqlite_db, if_neg h0, if_neg h1, hrun]
            rw [if_neg hc]
          rw [heq]
          refine ⟨fun _ => ⟨rfl, hp⟩, fun h => ?_, fun ids hids _ => ?_⟩
          · simp at h
          · subst hids
            show List.lookup _ pending = _ ∧ List.lookup _ pending = _ ∧
              List.lookup _ pending = _
            rw [hp]
            exact ⟨(lookup_dict_update_idPairs _ ids).1,
              (lookup_dict_update_idPairs _ ids).2.2.1,
              (lookup_dict_update_idPairs _ ids).2.2.2.2⟩

/-- C4 witness: a successful run over an empty database commits the full
identity set. -/
theorem c4_update_sqlite_db_transactional_witness :
    List.lookup "telemetry.devDeviceId"
        (update_sqlite_db none (idPairs ⟨"a", "b", "c", "d", "a"⟩)
          ⟨false, []⟩).2.rows = some "a" :=
  ((c4_update_sqlite_db_transactional none (idPairs ⟨"a", "b", "c", "d", "a"⟩)
    ⟨false, []⟩).2.2 ⟨"a", "b", "c", "d", "a"⟩ rfl (by decide)).1

/-- C8 counterexample: `generate_new_ids` does not leave the filesystem
unchanged — starting from a filesystem without the machine-id marker
file, the file exists afterwards, because the function calls
`update_machine_id_file` before returning. -/
theorem c8_generate_new_ids_purity_counterexample :
    (generate_new_ids (List.replicate 16 0) (List.replicate 32 0) (List.replicate 64 0)
      (List.replicate 16 0) "machineId" "20250101_000000" []).2 ≠ ([] : Dict) := by
  decide

/-- C8 (amended): `generate_new_ids` writes the fresh `devDeviceId` to
the machine-id marker file (backing the file up first when it exists)
and touches no other file, and the returned identity set is a pure
function of the random source, independent of the filesystem state. -/
theorem c8_generate_new_ids_file_write (u1 d32 d64 u2 : List Nat) (path ts : String)
    (fs : Dict) :
    List.lookup path (generate_new_ids u1 d32 d64 u2 path ts fs).2 =
      some (generate_new_ids u1 d32 d64 u2 path ts fs).1.devDeviceId ∧
    (∀ p : String, p ≠ path → p ≠ path ++ ".backup." ++ ts →
      List.lookup p (generate_new_ids u1 d32 d64 u2 path ts fs).2 = List.lookup p fs) ∧
    ∀ fs2 : Dict, (generate_new_ids u1 d32 d64 u2 path ts fs2).1 =
      (generate_new_ids u1 d32 d64 u2 path ts fs).1 := by
  refine ⟨?_, ?_, fun fs2 => rfl⟩
  · show List.lookup path (update_machine_id_file path ts _ fs).2 = _
    unfold update_machine_id_file
    cases List.lookup path fs <;> exact lookup_dictSet_self _ _ _
  · intro p hp hpb
    show List.lookup p (update_machine_id_file path ts _ fs).2 = _
    unfold update_machine_id_file
    cases List.lookup path fs with
    | none => exact lookup_dictSet_ne _ _ _ _ hp
    | some old =>
      rw [lookup_dictSet_ne _ _ _ _ hp, lookup_dictSet_ne _ _ _ _ hpb]

/-- C8 amended witness: a file unrelated to the marker path is left
unchanged. -/
theorem c8_generate_new_ids_file_write_witness :
    List.lookup "other"
        (generate_new_ids (List.replicate 16 0) (List.replicate 32 0)
          (List.replicate 64 0) (List.replicate 16 0) "machineId" "20250101_000000"
          [("other", "z")]).2 =
      List.lookup "other" [("other", "z")] :=
  (c8_generate_new_ids_file_write (List.replicate 16 0) (List.replicate 32 0)
    (List.replicate 64 0) (List.replicate 16 0) "machineId" "20250101_000000"
    [("other", "z")]).2.1 "other" (by decide) (by decide)

/-- C6: in every run of `reset_machine_ids`, whenever the SQLite update
is attempted the JSON write has already succeeded earlier in the trace,
and when the JSON write raises (failure step 5) the SQLite update is
never attempted. -/
theorem c6_json_before_sqlite (dbExists dbAccess : Bool) (failAt : Option Nat) :
    (RStep.sqliteUpdate ∈ (reset_machine_ids_run dbExists dbAccess failAt).2 →
      RStep.writeJson ∈ (reset_machine_ids_run dbExists dbAccess failAt).2 ∧
      List.indexOf RStep.writeJson (reset_machine_ids_run dbExists dbAccess failAt).2 <
        List.indexOf RStep.sqliteUpdate (reset_machine_ids_run dbExists dbAccess failAt).2) ∧
    (failAt = some 5 →
      RStep.sqliteUpdate ∉ (reset_machine_ids_run dbExists dbAccess failAt).2) := by
  cases dbExists <;> cases dbAccess <;> rcases failAt with _ | k <;>
    first
      | exact (by decide)
      | (rcases k with _ | _ | _ | _ | _ | _ | _ | _ | _ | k <;>
          first
            | exact (by decide)
            | (refine ⟨fun hmem => ?_, fun h5 => by injection h5 with hinj; omega⟩
               first
                 | exact absurd hmem
                     (show RStep.sqliteUpdate ∉ resetTrace.take 1 from by decide)
                 | exact absurd hmem
                     (show RStep.sqliteUpdate ∉ resetTrace.take 2 from by decide)
                 | exact ⟨show RStep.writeJson ∈ resetTrace from by decide,
                     show List.indexOf RStep.writeJson resetTrace <
                       List.indexOf RStep.sqliteUpdate resetTrace from by decide⟩))

/-- C6 witness: a run failing at the JSON write attempts no SQLite
update. -/
theorem c6_json_before_sqlite_witness :
    RStep.sqliteUpdate ∉ (reset_machine_ids_run true true (some 5)).2 :=
  (c6_json_before_sqlite true true (some 5)).2 rfl

theorem cmpParts_neg_iff : ∀ (a b : List Nat), a.length = b.length →
    (cmpParts a b = -1 ↔ pyListLt a b = true) := by
  intro a
  induction a with
  | nil =>
    intro b h
    cases b with
    | nil => decide
    | cons y ys => simp at h
  | cons x xs ih =>
    intro b h
    cases b with
    | nil => simp at h
    | cons y ys =>
      simp only [cmpParts, pyListLt]
      by_cases h1 : x < y
      · simp [h1]
      · by_cases h2 : y < x
        · rw [if_neg h1, if_pos h2, if_neg h1, if_pos h2]
          decide
        · have hxy : x = y := le_antisymm (not_lt.mp h2) (not_lt.mp h1)
          subst hxy
          rw [if_neg h1, if_neg h2, if_neg h1, if_neg h2]
          exact ih ys (by simpa using h)

theorem cmpParts_one_iff : ∀ (a b : List Nat), a.length = b.length →
    (cmpParts a b = 1 ↔ pyListLt b a = true) := by
  intro a
  induction a with
  | nil =>
    intro b h
    cases b with
    | nil => decide
    | cons y ys => simp at h
  | cons x xs ih =>
    intro b h
    cases b with
    | nil => simp at h
    | cons y ys =>
      simp only [cmpParts, pyListLt]
      by_cases h1 : x < y
      · have h2 : ¬y < x := by omega
        rw [if_pos h1, if_neg h2, if_pos h1]
        decide
      · by_cases h2 : y < x
        · rw [if_neg h1, if_pos h2, if_pos h2]
          decide
        · have hxy : x = y := le_antisymm (not_lt.mp h2) (not_lt.mp h1)
          subst hxy
          rw [if_neg h1, if_neg h2, if_neg h2, if_neg h1]
          exact ih ys (by simpa using h)

theorem parse_version_length (s : String) (h : isVersionFormat s = true) :
    (parse_version s).length = 3 := by
  simp only [isVersionFormat, Bool.and_eq_true, beq_iff_eq] at h
  simp [parse_version, h.1]

theorem version_format_ne_empty (s : String) (h : isVersionFormat s = true) :
    ¬ s = "" := by
  intro he
  subst he
  exact absurd h (by decide)

/-- C7: version comparison is numeric and component-wise
(`0.9.0 < 0.10.0`, `0.45.0 = 0.45.0`, `1.0.0 > 0.9.9`), and for
well-formed three-component versions the range check of `version_check`
accepts exactly when the version is neither below the minimum nor above
the maximum in the order of `compare_versions`. -/
theorem c7_compare_versions_numeric :
    compare_versions "0.9.0" "0.10.0" = -1 ∧
    compare_versions "0.45.0" "0.45.0" = 0 ∧
    compare_versions "1.0.0" "0.9.9" = 1 ∧
    ∀ v mn mx : String, isVersionFormat v = true → isVersionFormat mn = true →
      isVersionFormat mx = true →
      (version_check v mn mx = true ↔
        compare_versions v mn ≠ -1 ∧ compare_versions v mx ≠ 1) := by
  refine ⟨by decide, by decide, by decide, fun v mn mx hv hmn hmx => ?_⟩
  have hmnne : (mn == "") = false :=
    beq_eq_false_iff_ne.mpr (version_format_ne_empty mn hmn)
  have hmxne : (mx == "") = false :=
    beq_eq_false_iff_ne.mpr (version_format_ne_empty mx hmx)
  have hl1 : (parse_version v).length = (parse_version mn).length := by
    rw [parse_version_length v hv, parse_version_length mn hmn]
  have hl2 : (parse_version v).length = (parse_version mx).length := by
    rw [parse_version_length v hv, parse_version_length mx hmx]
  have e1 := cmpParts_neg_iff (parse_version v) (parse_version mn) hl1
  have e2 := cmpParts_one_iff (parse_version v) (parse_version mx) hl2
  have hvc : version_check v mn mx =
      (!(pyListLt (parse_version v) (parse_version mn)) &&
        !(pyListLt (parse_version mx) (parse_version v))) := by
    by_cases hA : pyListLt (parse_version v) (parse_version mn) = true
    · by_cases hB : pyListLt (parse_version mx) (parse_version v) = true <;>
        simp [version_check, hv, hmnne, hmxne, hA, hB]
    · by_cases hB : pyListLt (parse_version mx) (parse_version v) = true <;>
        simp [version_check, hv, hmnne, hmxne, hA, hB]
  rw [hvc, Bool.and_eq_true, Bool.not_eq_true', Bool.not_eq_true']
  constructor
  · rintro ⟨hA, hB⟩
    refine ⟨fun hc => ?_, fun hc => ?_⟩
    · rw [e1.mp hc] at hA
      exact absurd hA (by decide)
    · rw [e2.mp hc] at hB
      exact absurd hB (by decide)
  · rintro ⟨hc1, hc2⟩
    refine ⟨?_, ?_⟩
    · cases hL : pyListLt (parse_version v) (parse_version mn) with
      | false => rfl
      | true => exact absurd (e1.mpr hL) hc1
    · cases hL : pyListLt (parse_version mx) (parse_version v) with
      | false => rfl
      | true => exact absurd (e2.mpr hL) hc2

/-- C7 witness: the range-check agreement at `0.45.0` within
`[0.45.0, 0.46.0]`. -/
theorem c7_compare_versions_numeric_witness :
    version_check "0.45.0" "0.45.0" "0.46.0" = true ↔
      compare_versions "0.45.0" "0.45.0" ≠ -1 ∧
      compare_versions "0.45.0" "0.46.0" ≠ 1 :=
  c7_compare_versions_numeric.2.2.2 "0.45.0" "0.45.0" "0.46.0"
    (by decide) (by decide) (by decide)

end CursorFreeVip
